import Mathlib

/-!
Verification of the car-insurance-quote core of `geersch/nestjs-getting-started`.

The embedding translates, faithfully to the TypeScript source:
  * `QuoteService.calculatePremium` and `QuoteService.getById`
    (src/car-insurance-quote/quote.service.ts);
  * the in-memory `MockCarInsuranceQuoteRepository` (`save` assigns
    `id = quotes.length + 1` and pushes; `load` uses `Array.find`);
  * brand lookup, which the service reaches only through the abstract
    `CarBrandRepository.findById`, modelled as a function
    `findBrand : ℚ → Option CarBrand`; the two in-memory implementations
    (the seeded `CarBrandRepository` of car-brand.repository.ts and the
    test `MockCarBrandRepository`) are `List.find?` over their seed lists.

JavaScript numbers are modelled as exact rationals (ℚ); `Math.round x`
is `⌊x + 1/2⌋` (round half toward +∞, i.e. round-half-up on the
non-negative premiums that occur here). Promise rejection with one of the
four error classes is an `Except` error result; the quote store is passed
and returned explicitly.
-/

/-- `CarBrand` record (car-brand.repository.ts / repositories). -/
structure CarBrand where
  id : ℚ
  name : String
  minimumDriverAge : ℚ
  yearlyPremium : ℚ
deriving Repr, DecidableEq

/-- `CarInsuranceQuote` record (car-insurance-quote.repository.ts);
`createdOn` (a `Date`) is modelled as a natural-number timestamp. -/
structure CarInsuranceQuote where
  id : ℚ
  ageOfDriver : ℚ
  monthlyPremium : ℚ
  yearlyPremium : ℚ
  createdOn : ℕ
deriving Repr, DecidableEq

/-- The `Premium` interface returned by `QuoteService` (quote.service.ts). -/
structure Premium where
  id : ℚ
  monthlyPremium : ℚ
  yearlyPremium : ℚ
deriving Repr, DecidableEq

/-- The four business-rule error classes of errors/. The source class is
spelled `DriveTooYoungError` (sic). -/
inductive QuoteError where
  | driveTooYoung
  | purchasePriceTooLow
  | unknownCarBrand
  | riskTooHigh
deriving Repr, DecidableEq

/-- `const MINIMUM_AGE = 18` (quote.service.ts). -/
def MINIMUM_AGE : ℚ := 18

/-- `const MINIMUM_PURCHASE_PRICE = 5000` (quote.service.ts). -/
def MINIMUM_PURCHASE_PRICE : ℚ := 5000

/-- JavaScript `Math.round`: nearest integer, ties toward `+∞`,
i.e. `⌊x + 1/2⌋`. -/
def mathRound (x : ℚ) : ℚ := ((⌊x + 1/2⌋ : ℤ) : ℚ)

/-- `MockCarInsuranceQuoteRepository.save`: builds a quote with
`id = quotes.length + 1` and pushes it; returns the quote and the new
store. -/
def saveQuote (quotes : List CarInsuranceQuote) (now : ℕ)
    (ageOfDriver monthlyPremium yearlyPremium : ℚ) :
    CarInsuranceQuote × List CarInsuranceQuote :=
  let quote : CarInsuranceQuote :=
    { id := (quotes.length : ℚ) + 1
      ageOfDriver := ageOfDriver
      monthlyPremium := monthlyPremium
      yearlyPremium := yearlyPremium
      createdOn := now }
  (quote, quotes ++ [quote])

/-- `MockCarInsuranceQuoteRepository.load`:
`this.quotes.find((quote) => quote.id === id) ?? null`. -/
def loadQuote (quotes : List CarInsuranceQuote) (id : ℚ) :
    Option CarInsuranceQuote :=
  quotes.find? (fun q => decide (q.id = id))

/-- `brands.find((brand) => brand.id === id)` — the lookup shared by both
in-memory brand repositories. -/
def findBrandById (brands : List CarBrand) (id : ℚ) : Option CarBrand :=
  brands.find? (fun b => decide (b.id = id))

/-- `QuoteService.calculatePremium` (quote.service.ts): four sequential
rule checks, then `quoteRepository.save(age, Math.round(yearly / 12),
yearly)` and the projected `Premium`. `findBrand` stands for the injected
`CarBrandRepository.findById`; the quote store is threaded explicitly. -/
def calculatePremium (findBrand : ℚ → Option CarBrand)
    (quotes : List CarInsuranceQuote) (now : ℕ)
    (ageOfDriver carId purchasePrice : ℚ) :
    Except QuoteError Premium × List CarInsuranceQuote :=
  if ageOfDriver < MINIMUM_AGE then
    (.error .driveTooYoung, quotes)
  else if purchasePrice < MINIMUM_PURCHASE_PRICE then
    (.error .purchasePriceTooLow, quotes)
  else
    match findBrand carId with
    | none => (.error .unknownCarBrand, quotes)
    | some brand =>
      if ageOfDriver < brand.minimumDriverAge then
        (.error .riskTooHigh, quotes)
      else
        let saved := saveQuote quotes now ageOfDriver
          (mathRound (brand.yearlyPremium / 12)) brand.yearlyPremium
        (.ok { id := saved.1.id
               monthlyPremium := saved.1.monthlyPremium
               yearlyPremium := saved.1.yearlyPremium },
         saved.2)

/-- `QuoteService.getById`: load, then project to `Premium`, `undefined`
(here `none`) on a miss. -/
def getById (quotes : List CarInsuranceQuote) (id : ℚ) : Option Premium :=
  match loadQuote quotes id with
  | some q =>
    some { id := q.id
           monthlyPremium := q.monthlyPremium
           yearlyPremium := q.yearlyPremium }
  | none => none

/-- `QuoteService.getById` as a state transformer: the method only calls
`load`, which reads the store (`Array.find`) and performs no write, so the
store it leaves behind is the store it was given. -/
def getByIdS (quotes : List CarInsuranceQuote) (id : ℚ) :
    Option Premium × List CarInsuranceQuote :=
  (getById quotes id, quotes)

/-- Seed rows of the in-memory `CarBrandRepository`
(car-brand.repository.ts): note all three share `id := 1`. -/
def audiSeed : CarBrand :=
  { id := 1, name := "Audi", minimumDriverAge := 18, yearlyPremium := 250 }

/-- Second seed row of the in-memory `CarBrandRepository`. -/
def bmwSeed : CarBrand :=
  { id := 1, name := "BMW", minimumDriverAge := 18, yearlyPremium := 150 }

/-- Third seed row of the in-memory `CarBrandRepository`. -/
def porscheSeed : CarBrand :=
  { id := 1, name := "Porsche", minimumDriverAge := 25, yearlyPremium := 500 }

/-- The `brands` array of the in-memory `CarBrandRepository`. -/
def inMemoryBrands : List CarBrand := [audiSeed, bmwSeed, porscheSeed]

/-- The `BRANDS` array of `MockCarBrandRepository`
(test/mocks/mock-car-brand.repository.ts). -/
def mockBrands : List CarBrand :=
  [ { id := 1, name := "Mercedes", minimumDriverAge := 18, yearlyPremium := 1000 }
  , { id := 2, name := "BMW", minimumDriverAge := 18, yearlyPremium := 1250 }
  , { id := 3, name := "Audi", minimumDriverAge := 18, yearlyPremium := 1500 }
  , { id := 4, name := "Porsche", minimumDriverAge := 25, yearlyPremium := 2500 } ]

/-- Modelled from the spec: the spec's "standard rounding (round-half-up)"
for the monthly premium, to be compared with the code's `Math.round`. -/
def specRoundHalfUp (x : ℚ) : ℚ := ((⌊x + 1/2⌋ : ℤ) : ℚ)

/-- Quote stores reachable through the service API from the mock
repository's initial empty store: `getById` performs no write, so only
`calculatePremium` steps change the store. -/
inductive ReachableQuotes : List CarInsuranceQuote → Prop where
  | empty : ReachableQuotes []
  | step (f : ℚ → Option CarBrand) (st : List CarInsuranceQuote) (now : ℕ)
      (a c p : ℚ) : ReachableQuotes st →
      ReachableQuotes (calculatePremium f st now a c p).2

theorem calcP_young (f : ℚ → Option CarBrand) (st : List CarInsuranceQuote)
    (now : ℕ) (a c p : ℚ) (h : a < 18) :
    calculatePremium f st now a c p = (.error .driveTooYoung, st) := by
  simp only [calculatePremium, MINIMUM_AGE]
  rw [if_pos h]

theorem calcP_price (f : ℚ → Option CarBrand) (st : List CarInsuranceQuote)
    (now : ℕ) (a c p : ℚ) (h1 : 18 ≤ a) (h2 : p < 5000) :
    calculatePremium f st now a c p = (.error .purchasePriceTooLow, st) := by
  simp only [calculatePremium, MINIMUM_AGE, MINIMUM_PURCHASE_PRICE]
  rw [if_neg (not_lt.mpr h1), if_pos h2]

theorem calcP_unknown (f : ℚ → Option CarBrand) (st : List CarInsuranceQuote)
    (now : ℕ) (a c p : ℚ) (h1 : 18 ≤ a) (h2 : 5000 ≤ p) (h3 : f c = none) :
    calculatePremium f st now a c p = (.error .unknownCarBrand, st) := by
  simp only [calculatePremium, MINIMUM_AGE, MINIMUM_PURCHASE_PRICE]
  rw [if_neg (not_lt.mpr h1), if_neg (not_lt.mpr h2), h3]

theorem calcP_risk (f : ℚ → Option CarBrand) (st : List CarInsuranceQuote)
    (now : ℕ) (a c p : ℚ) (b : CarBrand) (h1 : 18 ≤ a) (h2 : 5000 ≤ p)
    (h3 : f c = some b) (h4 : a < b.minimumDriverAge) :
    calculatePremium f st now a c p = (.error .riskTooHigh, st) := by
  simp only [calculatePremium, MINIMUM_AGE, MINIMUM_PURCHASE_PRICE]
  rw [if_neg (not_lt.mpr h1), if_neg (not_lt.mpr h2), h3]
  exact if_pos h4

theorem calcP_ok (f : ℚ → Option CarBrand) (st : List CarInsuranceQuote)
    (now : ℕ) (a c p : ℚ) (b : CarBrand) (h1 : 18 ≤ a) (h2 : 5000 ≤ p)
    (h3 : f c = some b) (h4 : b.minimumDriverAge ≤ a) :
    calculatePremium f st now a c p =
      (.ok { id := (st.length : ℚ) + 1
             monthlyPremium := mathRound (b.yearlyPremium / 12)
             yearlyPremium := b.yearlyPremium },
       st ++ [{ id := (st.length : ℚ) + 1, ageOfDriver := a,
                monthlyPremium := mathRound (b.yearlyPremium / 12),
                yearlyPremium := b.yearlyPremium, createdOn := now }]) := by
  simp only [calculatePremium, MINIMUM_AGE, MINIMUM_PURCHASE_PRICE]
  rw [if_neg (not_lt.mpr h1), if_neg (not_lt.mpr h2), h3]
  dsimp only
  rw [if_neg (not_lt.mpr h4)]
  rfl

/-- C1: the four business rules are evaluated sequentially with
short-circuiting in the fixed order age floor, price floor, brand lookup,
brand-specific age; in particular any driver younger than 18 gets
DriveTooYoung whatever the other inputs, and an unknown carId with age ≥ 18
and price ≥ 5000 gets UnknownCarBrand. -/
theorem calculatePremium_rule_order (f : ℚ → Option CarBrand)
    (st : List CarInsuranceQuote) (now : ℕ) (a c p : ℚ) :
    (a < 18 → (calculatePremium f st now a c p).1 = .error .driveTooYoung) ∧
    (18 ≤ a → p < 5000 →
      (calculatePremium f st now a c p).1 = .error .purchasePriceTooLow) ∧
    (18 ≤ a → 5000 ≤ p → f c = none →
      (calculatePremium f st now a c p).1 = .error .unknownCarBrand) ∧
    (∀ b : CarBrand, 18 ≤ a → 5000 ≤ p → f c = some b →
      a < b.minimumDriverAge →
      (calculatePremium f st now a c p).1 = .error .riskTooHigh) := by
  refine ⟨fun h => ?_, fun h1 h2 => ?_, fun h1 h2 h3 => ?_,
    fun b h1 h2 h3 h4 => ?_⟩
  · rw [calcP_young f st now a c p h]
  · rw [calcP_price f st now a c p h1 h2]
  · rw [calcP_unknown f st now a c p h1 h2 h3]
  · rw [calcP_risk f st now a c p b h1 h2 h3 h4]

/-- Witness for C1 at concrete inputs against the mock brand store. -/
theorem calculatePremium_rule_order_witness :
    (calculatePremium (findBrandById mockBrands) [] 0 17 999 1).1
        = .error .driveTooYoung ∧
    (calculatePremium (findBrandById mockBrands) [] 0 18 999 4000).1
        = .error .purchasePriceTooLow ∧
    (calculatePremium (findBrandById mockBrands) [] 0 18 999 40000).1
        = .error .unknownCarBrand ∧
    (calculatePremium (findBrandById mockBrands) [] 0 18 4 40000).1
        = .error .riskTooHigh := by
  refine ⟨?_, ?_, ?_, ?_⟩
  · exact (calculatePremium_rule_order _ [] 0 17 999 1).1 (by norm_num)
  · exact (calculatePremium_rule_order _ [] 0 18 999 4000).2.1
      (by norm_num) (by norm_num)
  · exact (calculatePremium_rule_order _ [] 0 18 999 40000).2.2.1
      (by norm_num) (by norm_num) (by decide)
  · exact (calculatePremium_rule_order _ [] 0 18 4 40000).2.2.2
      { id := 4, name := "Porsche", minimumDriverAge := 25, yearlyPremium := 2500 }
      (by norm_num) (by norm_num) (by decide) (by norm_num)

theorem calculatePremium_state_cases (f : ℚ → Option CarBrand)
    (st : List CarInsuranceQuote) (now : ℕ) (a c p : ℚ) :
    (calculatePremium f st now a c p).2 = st ∨
    ∃ q : CarInsuranceQuote, q.id = (st.length : ℚ) + 1 ∧
      (calculatePremium f st now a c p).2 = st ++ [q] := by
  by_cases h1 : a < 18
  · rw [calcP_young f st now a c p h1]; exact Or.inl rfl
  replace h1 : 18 ≤ a := not_lt.mp h1
  by_cases h2 : p < 5000
  · rw [calcP_price f st now a c p h1 h2]; exact Or.inl rfl
  replace h2 : 5000 ≤ p := not_lt.mp h2
  rcases h3 : f c with _ | b
  · rw [calcP_unknown f st now a c p h1 h2 h3]; exact Or.inl rfl
  by_cases h4 : a < b.minimumDriverAge
  · rw [calcP_risk f st now a c p b h1 h2 h3 h4]; exact Or.inl rfl
  rw [calcP_ok f st now a c p b h1 h2 h3 (not_lt.mp h4)]
  exact Or.inr ⟨_, rfl, rfl⟩

theorem calculatePremium_ok_shape (f : ℚ → Option CarBrand)
    (st : List CarInsuranceQuote) (now : ℕ) (a c p : ℚ) (prem : Premium)
    (h : (calculatePremium f st now a c p).1 = .ok prem) :
    prem.id = (st.length : ℚ) + 1 ∧
    (calculatePremium f st now a c p).2 =
      st ++ [{ id := prem.id, ageOfDriver := a,
               monthlyPremium := prem.monthlyPremium,
               yearlyPremium := prem.yearlyPremium, createdOn := now }] ∧
    18 ≤ a ∧ 5000 ≤ p ∧
    ∃ b : CarBrand, f c = some b ∧ b.minimumDriverAge ≤ a ∧
      prem.yearlyPremium = b.yearlyPremium ∧
      prem.monthlyPremium = mathRound (b.yearlyPremium / 12) := by
  by_cases h1 : a < 18
  · rw [calcP_young f st now a c p h1] at h; exact absurd h (by simp)
  replace h1 : 18 ≤ a := not_lt.mp h1
  by_cases h2 : p < 5000
  · rw [calcP_price f st now a c p h1 h2] at h; exact absurd h (by simp)
  replace h2 : 5000 ≤ p := not_lt.mp h2
  rcases h3 : f c with _ | b
  · rw [calcP_unknown f st now a c p h1 h2 h3] at h; exact absurd h (by simp)
  by_cases h4 : a < b.minimumDriverAge
  · rw [calcP_risk f st now a c p b h1 h2 h3 h4] at h; exact absurd h (by simp)
  replace h4 : b.minimumDriverAge ≤ a := not_lt.mp h4
  rw [calcP_ok f st now a c p b h1 h2 h3 h4] at h
  rw [Except.ok.injEq] at h
  subst h
  rw [calcP_ok f st now a c p b h1 h2 h3 h4]
  exact ⟨rfl, rfl, h1, h2, b, rfl, h4, rfl, rfl⟩

/-- C2: every successful calculation against a brand with yearly premium Y
returns yearlyPremium = Y and monthlyPremium = round-half-up of Y / 12 (the
one rounding mode used throughout, JavaScript's `Math.round`); concretely,
against the store containing only brand {id 1, minimumDriverAge 18,
yearlyPremium 250}, `calculatePremium 18 1 40000` returns
{monthlyPremium 21, yearlyPremium 250}. -/
theorem calculatePremium_monthly_rounding :
    (∀ (f : ℚ → Option CarBrand) (st : List CarInsuranceQuote) (now : ℕ)
      (a c p : ℚ) (b : CarBrand), 18 ≤ a → 5000 ≤ p → f c = some b →
      b.minimumDriverAge ≤ a →
      ∃ prem : Premium, (calculatePremium f st now a c p).1 = .ok prem ∧
        prem.yearlyPremium = b.yearlyPremium ∧
        prem.monthlyPremium = specRoundHalfUp (b.yearlyPremium / 12)) ∧
    (∀ now : ℕ, (calculatePremium (findBrandById [audiSeed]) [] now 18 1 40000).1
      = .ok { id := 1, monthlyPremium := 21, yearlyPremium := 250 }) := by
  constructor
  · intro f st now a c p b h1 h2 h3 h4
    rw [calcP_ok f st now a c p b h1 h2 h3 h4]
    exact ⟨_, rfl, rfl, rfl⟩
  · intro now
    have h21 : mathRound (audiSeed.yearlyPremium / 12) = 21 := by
      norm_num [audiSeed, mathRound]
    rw [calcP_ok (findBrandById [audiSeed]) [] now 18 1 40000 audiSeed
      (by norm_num) (by norm_num) (by decide) (by norm_num [audiSeed]), h21]
    norm_num [audiSeed]

/-- Witness for C2: the universal part applied at age 20, price 9000
against the single-brand store, plus the concrete scenario itself. -/
theorem calculatePremium_monthly_rounding_witness :
    (∃ prem : Premium,
      (calculatePremium (findBrandById [audiSeed]) [] 0 20 1 9000).1 = .ok prem ∧
      prem.yearlyPremium = audiSeed.yearlyPremium ∧
      prem.monthlyPremium = specRoundHalfUp (audiSeed.yearlyPremium / 12)) ∧
    (calculatePremium (findBrandById [audiSeed]) [] 0 18 1 40000).1
      = .ok { id := 1, monthlyPremium := 21, yearlyPremium := 250 } :=
  ⟨calculatePremium_monthly_rounding.1 (findBrandById [audiSeed]) [] 0 20 1 9000
      audiSeed (by norm_num) (by norm_num) (by decide) (by norm_num [audiSeed]),
    calculatePremium_monthly_rounding.2 0⟩

/-- C3: the single repository write happens only after all four checks
pass — on failure the quote store is returned unchanged, and on success
exactly one quote (the one backing the returned premium, which therefore
passed every rule) is appended. -/
theorem calculatePremium_no_partial_writes (f : ℚ → Option CarBrand)
    (st : List CarInsuranceQuote) (now : ℕ) (a c p : ℚ) :
    (∀ e : QuoteError, (calculatePremium f st now a c p).1 = .error e →
      (calculatePremium f st now a c p).2 = st) ∧
    (∀ prem : Premium, (calculatePremium f st now a c p).1 = .ok prem →
      (calculatePremium f st now a c p).2 =
        st ++ [{ id := prem.id, ageOfDriver := a,
                 monthlyPremium := prem.monthlyPremium,
                 yearlyPremium := prem.yearlyPremium, createdOn := now }] ∧
      18 ≤ a ∧ 5000 ≤ p ∧
      ∃ b : CarBrand, f c = some b ∧ b.minimumDriverAge ≤ a) := by
  constructor
  · intro e he
    by_cases h1 : a < 18
    · rw [calcP_young f st now a c p h1]
    by_cases h2 : p < 5000
    · rw [calcP_price f st now a c p (not_lt.mp h1) h2]
    rcases h3 : f c with _ | b
    · rw [calcP_unknown f st now a c p (not_lt.mp h1) (not_lt.mp h2) h3]
    by_cases h4 : a < b.minimumDriverAge
    · rw [calcP_risk f st now a c p b (not_lt.mp h1) (not_lt.mp h2) h3 h4]
    · rw [calcP_ok f st now a c p b (not_lt.mp h1) (not_lt.mp h2) h3
        (not_lt.mp h4)] at he
      exact absurd he (by simp)
  · intro prem hok
    obtain ⟨_, hst, h1, h2, b, h3, h4, _, _⟩ :=
      calculatePremium_ok_shape f st now a c p prem hok
    exact ⟨hst, h1, h2, b, h3, h4⟩

/-- C4 counterexample: with the mock brand store, carId 999 resolves to no
brand and the driver (17) is underage, yet the reported failure is
DriveTooYoung, not UnknownBrand — the age-floor check runs first. -/
theorem unknownBrand_underage_counterexample :
    findBrandById mockBrands 999 = none ∧
    (calculatePremium (findBrandById mockBrands) [] 0 17 999 40000).1
      = .error .driveTooYoung ∧
    (calculatePremium (findBrandById mockBrands) [] 0 17 999 40000).1
      ≠ .error .unknownCarBrand := by
  refine ⟨by decide, ?_, ?_⟩
  · rw [calcP_young (findBrandById mockBrands) [] 0 17 999 40000 (by norm_num)]
  · rw [calcP_young (findBrandById mockBrands) [] 0 17 999 40000 (by norm_num)]
    simp

/-- C4 amended: an unresolvable carId never yields RiskTooHigh, and once
the two input-only floors pass (driverAge ≥ 18 and purchasePrice ≥ 5000)
it always yields UnknownCarBrand; for an underage driver, however, the
age floor wins and the result is DriveTooYoung rather than UnknownBrand. -/
theorem calculatePremium_unknownBrand_priority (f : ℚ → Option CarBrand)
    (st : List CarInsuranceQuote) (now : ℕ) (a c p : ℚ)
    (hnone : f c = none) :
    (calculatePremium f st now a c p).1 ≠ .error .riskTooHigh ∧
    (18 ≤ a → 5000 ≤ p →
      (calculatePremium f st now a c p).1 = .error .unknownCarBrand) := by
  constructor
  · by_cases h1 : a < 18
    · rw [calcP_young f st now a c p h1]; simp
    by_cases h2 : p < 5000
    · rw [calcP_price f st now a c p (not_lt.mp h1) h2]; simp
    · rw [calcP_unknown f st now a c p (not_lt.mp h1) (not_lt.mp h2) hnone]
      simp
  · intro h1 h2
    rw [calcP_unknown f st now a c p h1 h2 hnone]

/-- Witness for the amended C4 at concrete inputs. -/
theorem calculatePremium_unknownBrand_priority_witness :
    (calculatePremium (findBrandById mockBrands) [] 0 17 999 40000).1
      ≠ .error .riskTooHigh ∧
    (calculatePremium (findBrandById mockBrands) [] 0 18 999 40000).1
      = .error .unknownCarBrand :=
  ⟨(calculatePremium_unknownBrand_priority (findBrandById mockBrands) [] 0
      17 999 40000 (by decide)).1,
   (calculatePremium_unknownBrand_priority (findBrandById mockBrands) [] 0
      18 999 40000 (by decide)).2 (by norm_num) (by norm_num)⟩

/-- C5 counterexample: Porsche (mock store id 4) has minimumDriverAge 25,
the driver is 18 ∈ [18, 25), yet with purchasePrice 4000 the result is
PurchasePriceTooLow, not RiskTooHigh — the claim's "for every
purchasePrice" fails. -/
theorem riskTooHigh_interval_counterexample :
    findBrandById mockBrands 4 = some
      { id := 4, name := "Porsche", minimumDriverAge := 25, yearlyPremium := 2500 } ∧
    (calculatePremium (findBrandById mockBrands) [] 0 18 4 4000).1
      = .error .purchasePriceTooLow ∧
    (calculatePremium (findBrandById mockBrands) [] 0 18 4 4000).1
      ≠ .error .riskTooHigh := by
  refine ⟨by decide, ?_, ?_⟩
  · rw [calcP_price (findBrandById mockBrands) [] 0 18 4 4000
      (by norm_num) (by norm_num)]
  · rw [calcP_price (findBrandById mockBrands) [] 0 18 4 4000
      (by norm_num) (by norm_num)]
    simp

/-- C5 amended: for a stored brand with minimumDriverAge M, every
driverAge in [18, M) with purchasePrice ≥ 5000 fails with RiskTooHigh
(for purchasePrice < 5000 the price floor fails first instead). -/
theorem calculatePremium_riskTooHigh_interval (f : ℚ → Option CarBrand)
    (st : List CarInsuranceQuote) (now : ℕ) (a c p : ℚ) (b : CarBrand)
    (hb : f c = some b) (h1 : 18 ≤ a) (h4 : a < b.minimumDriverAge)
    (h2 : 5000 ≤ p) :
    (calculatePremium f st now a c p).1 = .error .riskTooHigh := by
  rw [calcP_risk f st now a c p b h1 h2 hb h4]

/-- Witness for the amended C5: driver 20 with the mock Porsche. -/
theorem calculatePremium_riskTooHigh_interval_witness :
    (calculatePremium (findBrandById mockBrands) [] 0 20 4 40000).1
      = .error .riskTooHigh :=
  calculatePremium_riskTooHigh_interval (findBrandById mockBrands) [] 0
    20 4 40000
    { id := 4, name := "Porsche", minimumDriverAge := 25, yearlyPremium := 2500 }
    (by decide) (by norm_num) (by norm_num) (by norm_num)

/-- C6: `getById` returns the explicit absent value `none` (not a
rule-violation error) whenever no stored quote carries the requested id,
and returns the projected {id, monthlyPremium, yearlyPremium} of the quote
`load` finds otherwise. -/
theorem getById_lookup (st : List CarInsuranceQuote) (i : ℚ) :
    ((∀ q ∈ st, q.id ≠ i) → getById st i = none) ∧
    (∀ q : CarInsuranceQuote, loadQuote st i = some q →
      getById st i = some { id := q.id, monthlyPremium := q.monthlyPremium,
                            yearlyPremium := q.yearlyPremium }) := by
  constructor
  · intro hnone
    have hload : loadQuote st i = none := by
      simp only [loadQuote, List.find?_eq_none, decide_eq_true_eq]
      exact hnone
    simp [getById, hload]
  · intro q hq
    simp [getById, hq]

/-- Witness for C6: the empty store misses id 5; a one-quote store with
id 1 hits. -/
theorem getById_lookup_witness :
    getById [] 5 = none ∧
    getById [{ id := 1, ageOfDriver := 20, monthlyPremium := 125,
               yearlyPremium := 1500, createdOn := 0 }] 1
      = some { id := 1, monthlyPremium := 125, yearlyPremium := 1500 } :=
  ⟨(getById_lookup [] 5).1 (by simp),
   (getById_lookup [{ id := 1, ageOfDriver := 20, monthlyPremium := 125,
                      yearlyPremium := 1500, createdOn := 0 }] 1).2
     { id := 1, ageOfDriver := 20, monthlyPremium := 125,
       yearlyPremium := 1500, createdOn := 0 } (by decide)⟩

theorem reachable_quote_ids (st : List CarInsuranceQuote)
    (h : ReachableQuotes st) :
    ∀ (i : ℕ) (hi : i < st.length), (st.get ⟨i, hi⟩).id = (i : ℚ) + 1 := by
  induction h with
  | empty => intro i hi; exact absurd hi (by simp)
  | step f st now a c p hst ih =>
    rcases calculatePremium_state_cases f st now a c p with hcase | ⟨q, hq, hcase⟩
    · rw [hcase]; exact ih
    · rw [hcase]
      intro i hi
      by_cases hlt : i < st.length
      · have hget : (st ++ [q]).get ⟨i, hi⟩ = st.get ⟨i, hlt⟩ := by
          simp [List.getElem_append_left hlt]
        rw [hget]
        exact ih i hlt
      · have hlen : i < st.length + 1 := by simpa using hi
        have hieq : i = st.length := by omega
        subst hieq
        have hget : (st ++ [q]).get ⟨st.length, hi⟩ = q := by simp
        rw [hget, hq]

/-- C7: over any store reachable through the service from the empty
in-memory store, a successful `calculatePremium` persists a quote whose
id exceeds every id already in the store, and two back-to-back successful
calls return premiums with distinct (strictly increasing) ids. -/
theorem quote_ids_unique_increasing (f₁ f₂ : ℚ → Option CarBrand)
    (st : List CarInsuranceQuote) (now₁ now₂ : ℕ)
    (a₁ c₁ p₁ a₂ c₂ p₂ : ℚ) (h : ReachableQuotes st)
    (prem₁ prem₂ : Premium)
    (h1 : (calculatePremium f₁ st now₁ a₁ c₁ p₁).1 = .ok prem₁)
    (h2 : (calculatePremium f₂ (calculatePremium f₁ st now₁ a₁ c₁ p₁).2
            now₂ a₂ c₂ p₂).1 = .ok prem₂) :
    (∀ q ∈ st, q.id < prem₁.id) ∧ prem₁.id < prem₂.id ∧ prem₁.id ≠ prem₂.id := by
  obtain ⟨hid1, hst1, -, -, -⟩ :=
    calculatePremium_ok_shape f₁ st now₁ a₁ c₁ p₁ prem₁ h1
  obtain ⟨hid2, -, -, -, -⟩ :=
    calculatePremium_ok_shape f₂ _ now₂ a₂ c₂ p₂ prem₂ h2
  rw [hst1] at hid2
  simp only [List.length_append, List.length_cons, List.length_nil] at hid2
  constructor
  · intro q hq
    obtain ⟨⟨i, hi⟩, hgi⟩ := List.mem_iff_get.mp hq
    have hqid := reachable_quote_ids st h i hi
    rw [hgi] at hqid
    have hcast : (i : ℚ) < (st.length : ℚ) := by exact_mod_cast hi
    rw [hqid, hid1]
    linarith
  · have hlt : prem₁.id < prem₂.id := by
      rw [hid1, hid2]
      push_cast
      linarith
    exact ⟨hlt, ne_of_lt hlt⟩

/-- Witness for C7: two successful calls for a 20-year-old against mock
brand 3 (Audi, yearly 1500) from the empty store give ids 1 then 2. -/
theorem quote_ids_unique_increasing_witness :
    (∀ q ∈ ([] : List CarInsuranceQuote),
      q.id < (Premium.mk 1 125 1500).id) ∧
    (Premium.mk 1 125 1500).id < (Premium.mk 2 125 1500).id ∧
    (Premium.mk 1 125 1500).id ≠ (Premium.mk 2 125 1500).id := by
  have hbrand : findBrandById mockBrands 3 = some
      { id := 3, name := "Audi", minimumDriverAge := 18, yearlyPremium := 1500 } := by
    decide
  have hm : mathRound ((1500 : ℚ) / 12) = 125 := by norm_num [mathRound]
  refine quote_ids_unique_increasing (findBrandById mockBrands)
    (findBrandById mockBrands) [] 0 0 20 3 40000 20 3 40000
    ReachableQuotes.empty (Premium.mk 1 125 1500) (Premium.mk 2 125 1500) ?_ ?_
  · rw [calcP_ok _ [] 0 20 3 40000 _ (by norm_num) (by norm_num) hbrand
      (by norm_num)]
    simp [hm]
  · rw [calcP_ok _ [] 0 20 3 40000 _ (by norm_num) (by norm_num) hbrand
      (by norm_num)]
    rw [calcP_ok _ _ 0 20 3 40000 _ (by norm_num) (by norm_num) hbrand
      (by norm_num)]
    simp [hm]
    norm_num

/-- C8: no operation mutates or deletes existing records — a
`calculatePremium` call leaves the quote store unchanged or appends one
new quote (every pre-existing quote survives), and `getById` (which also
never touches the brand store) leaves the quote store untouched, so
reading the same id twice yields identical data. -/
theorem no_record_mutation (f : ℚ → Option CarBrand)
    (st : List CarInsuranceQuote) (now : ℕ) (a c p i : ℚ) :
    ((calculatePremium f st now a c p).2 = st ∨
      ∃ q : CarInsuranceQuote, (calculatePremium f st now a c p).2 = st ++ [q]) ∧
    (∀ q ∈ st, q ∈ (calculatePremium f st now a c p).2) ∧
    (getByIdS st i).2 = st ∧
    getById (getByIdS st i).2 i = getById st i := by
  have hcases := calculatePremium_state_cases f st now a c p
  refine ⟨?_, ?_, rfl, rfl⟩
  · rcases hcases with h | ⟨q, -, h⟩
    · exact Or.inl h
    · exact Or.inr ⟨q, h⟩
  · intro q hq
    rcases hcases with h | ⟨q', -, h⟩
    · rw [h]; exact hq
    · rw [h]; exact List.mem_append_left _ hq

/-- Witness for C8 at a one-quote store and a failing call. -/
theorem no_record_mutation_witness :
    ((calculatePremium (findBrandById mockBrands)
        [CarInsuranceQuote.mk 1 20 125 1500 0] 0 17 1 100).2
          = [CarInsuranceQuote.mk 1 20 125 1500 0] ∨
      ∃ q : CarInsuranceQuote,
        (calculatePremium (findBrandById mockBrands)
          [CarInsuranceQuote.mk 1 20 125 1500 0] 0 17 1 100).2
            = [CarInsuranceQuote.mk 1 20 125 1500 0] ++ [q]) ∧
    CarInsuranceQuote.mk 1 20 125 1500 0 ∈
      (calculatePremium (findBrandById mockBrands)
        [CarInsuranceQuote.mk 1 20 125 1500 0] 0 17 1 100).2 ∧
    (getByIdS [CarInsuranceQuote.mk 1 20 125 1500 0] 1).2
      = [CarInsuranceQuote.mk 1 20 125 1500 0] ∧
    getById (getByIdS [CarInsuranceQuote.mk 1 20 125 1500 0] 1).2 1
      = getById [CarInsuranceQuote.mk 1 20 125 1500 0] 1 :=
  have h := no_record_mutation (findBrandById mockBrands)
    [CarInsuranceQuote.mk 1 20 125 1500 0] 0 17 1 100 1
  ⟨h.1, h.2.1 (CarInsuranceQuote.mk 1 20 125 1500 0) (by simp),
    h.2.2.1, h.2.2.2⟩

/-- C9: with the in-memory repositories, a successful `calculatePremium`
returning premium `prem` followed immediately by `getById prem.id` on the
resulting store returns exactly `prem`. -/
theorem calculatePremium_getById_roundtrip (f : ℚ → Option CarBrand)
    (st : List CarInsuranceQuote) (now : ℕ) (a c p : ℚ) (prem : Premium)
    (hr : ReachableQuotes st)
    (h : (calculatePremium f st now a c p).1 = .ok prem) :
    getById (calculatePremium f st now a c p).2 prem.id = some prem := by
  obtain ⟨hid, hst, -, -, -⟩ := calculatePremium_ok_shape f st now a c p prem h
  rw [hst]
  have hnone : loadQuote st prem.id = none := by
    simp only [loadQuote, List.find?_eq_none, decide_eq_true_eq]
    intro q hq
    obtain ⟨⟨i, hi⟩, hgi⟩ := List.mem_iff_get.mp hq
    have hqid := reachable_quote_ids st hr i hi
    rw [hgi] at hqid
    rw [hqid, hid]
    intro hcontra
    have hcast : (i : ℚ) < (st.length : ℚ) := by exact_mod_cast hi
    have : (i : ℚ) = (st.length : ℚ) := by linarith
    linarith
  have hload : loadQuote
      (st ++ [{ id := prem.id, ageOfDriver := a,
                monthlyPremium := prem.monthlyPremium,
                yearlyPremium := prem.yearlyPremium, createdOn := now }])
      prem.id =
      some { id := prem.id, ageOfDriver := a,
             monthlyPremium := prem.monthlyPremium,
             yearlyPremium := prem.yearlyPremium, createdOn := now } := by
    simp only [loadQuote] at hnone ⊢
    rw [List.find?_append, hnone]
    simp
  rw [getById, hload]

/-- Witness for C9: one successful call from the empty store, then a read
of the returned id. -/
theorem calculatePremium_getById_roundtrip_witness :
    getById (calculatePremium (findBrandById mockBrands) [] 0 20 3 40000).2
      (Premium.mk 1 125 1500).id = some (Premium.mk 1 125 1500) :=
  calculatePremium_getById_roundtrip (findBrandById mockBrands) [] 0
    20 3 40000 (Premium.mk 1 125 1500) ReachableQuotes.empty
    (by
      have hbrand : findBrandById mockBrands 3 = some
          { id := 3, name := "Audi", minimumDriverAge := 18,
            yearlyPremium := 1500 } := by decide
      have hm : mathRound ((1500 : ℚ) / 12) = 125 := by norm_num [mathRound]
      rw [calcP_ok _ [] 0 20 3 40000 _ (by norm_num) (by norm_num) hbrand
        (by norm_num)]
      simp [hm])

/-- C10: every seed row of the embedded in-memory `CarBrandRepository`
carries id 1, so `findById 1` always returns the Audi row (the first
match), `findById` misses for every other id, and no lookup can ever
return the BMW or Porsche rows. -/
theorem inMemoryBrandRepository_shadowed_seeds :
    (∀ b ∈ inMemoryBrands, b.id = 1) ∧
    findBrandById inMemoryBrands 1 = some audiSeed ∧
    (∀ i : ℚ, i ≠ 1 → findBrandById inMemoryBrands i = none) ∧
    (∀ i : ℚ, findBrandById inMemoryBrands i ≠ some bmwSeed) ∧
    (∀ i : ℚ, findBrandById inMemoryBrands i ≠ some porscheSeed) := by
  have hmiss : ∀ i : ℚ, i ≠ 1 → findBrandById inMemoryBrands i = none := by
    intro i hi
    have h1 : ¬ (audiSeed.id = i) := by
      simp only [audiSeed]
      exact fun hcontra => hi hcontra.symm
    have h2 : ¬ (bmwSeed.id = i) := by
      simp only [bmwSeed]
      exact fun hcontra => hi hcontra.symm
    have h3 : ¬ (porscheSeed.id = i) := by
      simp only [porscheSeed]
      exact fun hcontra => hi hcontra.symm
    simp [findBrandById, inMemoryBrands, List.find?, h1, h2, h3]
  have hhit : findBrandById inMemoryBrands 1 = some audiSeed := by decide
  refine ⟨by decide, hhit, hmiss, ?_, ?_⟩
  · intro i
    by_cases hi : i = 1
    · subst hi
      rw [hhit]
      decide
    · rw [hmiss i hi]
      simp
  · intro i
    by_cases hi : i = 1
    · subst hi
      rw [hhit]
      decide
    · rw [hmiss i hi]
      simp

/-- Witness for C10: the miss branch at id 2 and the unreachable rows. -/
theorem inMemoryBrandRepository_shadowed_seeds_witness :
    findBrandById inMemoryBrands 2 = none ∧
    findBrandById inMemoryBrands 2 ≠ some bmwSeed :=
  ⟨inMemoryBrandRepository_shadowed_seeds.2.2.1 2 (by norm_num),
   inMemoryBrandRepository_shadowed_seeds.2.2.2.1 2⟩

/-- Witness for C3: a failing call (age 17) leaves the empty store empty;
a successful call appends exactly the one quote backing the premium. -/
theorem calculatePremium_no_partial_writes_witness :
    (calculatePremium (findBrandById mockBrands) [] 0 17 1 100).2 = [] ∧
    ((calculatePremium (findBrandById mockBrands) [] 0 20 3 40000).2
        = [] ++ [CarInsuranceQuote.mk 1 20 125 1500 0] ∧
      (18 : ℚ) ≤ 20 ∧ (5000 : ℚ) ≤ 40000 ∧
      ∃ b : CarBrand, findBrandById mockBrands 3 = some b ∧
        b.minimumDriverAge ≤ 20) :=
  ⟨(calculatePremium_no_partial_writes (findBrandById mockBrands)
      [] 0 17 1 100).1 .driveTooYoung
      (by rw [calcP_young (findBrandById mockBrands) [] 0 17 1 100
        (by norm_num)]),
   (calculatePremium_no_partial_writes (findBrandById mockBrands)
      [] 0 20 3 40000).2 (Premium.mk 1 125 1500)
      (by
        have hbrand : findBrandById mockBrands 3 = some
            { id := 3, name := "Audi", minimumDriverAge := 18,
              yearlyPremium := 1500 } := by decide
        have hm : mathRound ((1500 : ℚ) / 12) = 125 := by norm_num [mathRound]
        rw [calcP_ok _ [] 0 20 3 40000 _ (by norm_num) (by norm_num) hbrand
          (by norm_num)]
        simp [hm])⟩
